import Mathlib

/-!
# The libjsonnet bridge header of jsonnet_cgo

`bridge.h` is a declaration-only C header: an include guard, one `#include`,
one typedef and three function prototypes.  The first part of this file embeds
the header as a list of items (one per non-blank source line) together with the
small fragment of the C type language it uses, and proves the claims that are
about the declared shapes.  The second part models the behaviour of the
declared functions, whose bodies live outside the header.
-/

namespace Bridge

/-! ## C types and declarations -/

/-- The fragment of C types needed for `bridge.h`.  `bool` (C's `_Bool`) does
not occur in the header; it is present so that a `bool*` parameter can be
written down and compared with what the header declares. -/
inductive CType where
  | void
  | char
  | int
  | bool
  | struct (tag : String)
  | named (name : String)
  | const (t : CType)
  | ptr (t : CType)
  deriving DecidableEq, Repr

/-- One parameter of a prototype: its declared type and its name. -/
structure Param where
  type : CType
  name : String
  deriving DecidableEq, Repr

/-- A function declaration.  `body` is the text of the function body when the
declaration is a definition, and `none` for a prototype ending in `;`. -/
structure FunDecl where
  ret : CType
  name : String
  params : List Param
  body : Option String
  deriving DecidableEq, Repr

/-- A function type: return type and parameter types, names forgotten. -/
structure FunType where
  ret : CType
  params : List CType
  deriving DecidableEq, Repr

/-- The type of a declared function. -/
def FunDecl.type (d : FunDecl) : FunType :=
  ⟨d.ret, d.params.map Param.type⟩

/-- One non-blank line of the header. -/
inductive Item where
  | ifndefLine (name : String)
  | defineLine (name : String) (replacement : String)
  | includeLine (file : String)
  | typedefDecl (name : String) (type : CType)
  | functionDecl (d : FunDecl)
  | endifLine
  deriving DecidableEq, Repr

namespace Decl

/-- Line 5: `typedef JsonnetImportCallback* JsonnetImportCallbackPtr;` -/
def JsonnetImportCallbackPtr : CType :=
  .ptr (.named "JsonnetImportCallback")

/-- Line 7: `struct JsonnetVm* go_get_guts(void* ctx);` -/
def go_get_guts : FunDecl :=
  { ret := .ptr (.struct "JsonnetVm")
    name := "go_get_guts"
    params := [⟨.ptr .void, "ctx"⟩]
    body := none }

/-- Line 9:
`char* CallImport_cgo(void *ctx, const char *base, const char *rel, int *success);` -/
def CallImport_cgo : FunDecl :=
  { ret := .ptr .char
    name := "CallImport_cgo"
    params := [⟨.ptr .void, "ctx"⟩, ⟨.ptr (.const .char), "base"⟩,
               ⟨.ptr (.const .char), "rel"⟩, ⟨.ptr .int, "success"⟩]
    body := none }

/-- Line 11: `char* go_call_import(void* vm, char *base, char *rel, int *success);` -/
def go_call_import : FunDecl :=
  { ret := .ptr .char
    name := "go_call_import"
    params := [⟨.ptr .void, "vm"⟩, ⟨.ptr .char, "base"⟩,
               ⟨.ptr .char, "rel"⟩, ⟨.ptr .int, "success"⟩]
    body := none }

end Decl

/-- The header `bridge.h`, item by item in source order (lines 1, 2, 3, 5, 7, 9,
11 and 13; the other lines are blank). -/
def bridge_h : List Item :=
  [ .ifndefLine "LIBJSONNET_BRIDGE_H",
    .defineLine "LIBJSONNET_BRIDGE_H" "",
    .includeLine "libjsonnet.h",
    .typedefDecl "JsonnetImportCallbackPtr" Decl.JsonnetImportCallbackPtr,
    .functionDecl Decl.go_get_guts,
    .functionDecl Decl.CallImport_cgo,
    .functionDecl Decl.go_call_import,
    .endifLine ]

/-! ## Reading a header -/

/-- The typedefs a header declares, in order. -/
def typedefs : List Item → List (String × CType)
  | [] => []
  | .typedefDecl n t :: rest => (n, t) :: typedefs rest
  | _ :: rest => typedefs rest

/-- The functions a header declares, in order. -/
def functions : List Item → List FunDecl
  | [] => []
  | .functionDecl d :: rest => d :: functions rest
  | _ :: rest => functions rest

/-- The preprocessor macros a header defines, in order. -/
def macros : List Item → List (String × String)
  | [] => []
  | .defineLine n r :: rest => (n, r) :: macros rest
  | _ :: rest => macros rest

/-- The identifiers a header declares at file scope (typedef names and function
names), in order.  Preprocessor directives declare nothing. -/
def declaredSymbols : List Item → List String
  | [] => []
  | .typedefDecl n _ :: rest => n :: declaredSymbols rest
  | .functionDecl d :: rest => d.name :: declaredSymbols rest
  | _ :: rest => declaredSymbols rest

/-- The declaration of the function called `name`, if the header has one. -/
def functionNamed (hdr : List Item) (name : String) : Option FunDecl :=
  (functions hdr).find? (fun d => d.name == name)

/-- The type a typedef name of the header stands for. -/
def typedefNamed (hdr : List Item) (name : String) : Option CType :=
  (typedefs hdr).lookup name

/-! ## The callback type of the evaluator library -/

/-- Modelled from the spec: `libjsonnet.h`, which the header includes on line 3,
is the evaluator library's public header and is not part of this repository.
Its import-callback type is taken in the shape the callback contract is stated
in: `char *JsonnetImportCallback(void *ctx, const char *base, const char *rel,
int *success)`. -/
def JsonnetImportCallback : FunType :=
  ⟨.ptr .char, [.ptr .void, .ptr (.const .char), .ptr (.const .char), .ptr .int]⟩

/-- Modelled from the spec: the function typedefs that `#include <libjsonnet.h>`
brings into scope, restricted to the one the header uses. -/
def libjsonnet_h : List (String × FunType) :=
  [("JsonnetImportCallback", JsonnetImportCallback)]

/-- The function type a pointer-to-function typedef points to, with the typedef
name looked up among the included function typedefs. -/
def pointee (env : List (String × FunType)) : CType → Option FunType
  | .ptr (.named n) => env.lookup n
  | _ => none

/-- A declared function can be stored in a variable of pointer type `t` without
a cast when `t` points to exactly the function's type (a function designator
decays to a pointer to its own type). -/
def registrableAs (env : List (String × FunType)) (d : FunDecl) (t : CType) : Bool :=
  pointee env t == some d.type

/-! ## Comparing declarations -/

/-- A type with every `const` qualifier removed, at any depth. -/
def stripConst : CType → CType
  | .const t => stripConst t
  | .ptr t => .ptr (stripConst t)
  | t => t

/-- The positions at which two parameter lists, compared pairwise with `same`,
disagree. -/
def diffPositions (same : Param → Param → Bool) (ps qs : List Param) : List Nat :=
  (((ps.zip qs).enum).filter (fun x => !same x.2.1 x.2.2)).map Prod.fst

/-- A pointee type split into its unqualified type and whether it is `const`. -/
def unqual : CType → CType × Bool
  | .const t => ((unqual t).1, true)
  | t => (t, false)

/-- How an argument of one type is passed to a parameter of another. -/
inductive Conv where
  | exact
  | implicit
  | cast
  | impossible
  deriving DecidableEq, Repr

/-- Passing a value of type `src` to a parameter of type `dst`, following C's
rules for assignment between the types of the header: identical types need
nothing; a pointer converts implicitly when the pointees agree up to added
qualifiers or one side is a `void` pointer, provided `const` is not dropped;
any other pointer-to-pointer conversion needs an explicit cast. -/
def argConv (src dst : CType) : Conv :=
  if src = dst then .exact
  else
    match src, dst with
    | .ptr a, .ptr b =>
      if ((unqual a).1 = (unqual b).1 ∨ (unqual a).1 = .void ∨ (unqual b).1 = .void)
          ∧ ((unqual a).2 = true → (unqual b).2 = true) then .implicit
      else .cast
    | _, _ => .impossible

/-! ## The boundary surface as the specification words it -/

/-- The kinds of value that cross the boundary. -/
inductive IfaceType where
  | hostContext
  | vmHandle
  | pathString
  | outBool
  | buffer
  deriving DecidableEq, Repr

/-- A signature of the boundary surface. -/
structure IfaceSig where
  params : List IfaceType
  ret : IfaceType
  deriving DecidableEq, Repr

/-- The import trampoline as the specification gives it:
`(native_vm_handle, base_path: string, rel_path: string, out success: bool*) -> buffer`. -/
def specTrampoline : IfaceSig :=
  ⟨[.vmHandle, .pathString, .pathString, .outBool], .buffer⟩

/-- The accessor as the specification gives it:
`(opaque_context) -> native_vm_handle`. -/
def specAccessor : IfaceSig :=
  ⟨[.hostContext], .vmHandle⟩

/-- Whether a C type is a rendering of an interface kind.  An untyped pointer
can carry either handle; a VM handle may also be typed `struct JsonnetVm*`; a
string is a pointer to `char`, `const` or not; `bool*` is a pointer to `_Bool`;
a buffer is a `char*`. -/
def realises : CType → IfaceType → Bool
  | .ptr .void, .hostContext => true
  | .ptr .void, .vmHandle => true
  | .ptr (.struct tag), .vmHandle => tag == "JsonnetVm"
  | .ptr .char, .pathString => true
  | .ptr (.const .char), .pathString => true
  | .ptr .bool, .outBool => true
  | .ptr .char, .buffer => true
  | _, _ => false

/-- The parameter positions at which a declaration fails to render a signature
of the boundary surface. -/
def paramMismatches (d : FunDecl) (sig : IfaceSig) : List Nat :=
  ((((d.params.map Param.type).zip sig.params).enum).filter
    (fun x => !realises x.2.1 x.2.2)).map Prod.fst

/-- A declaration renders a signature of the boundary surface: same number of
parameters, every parameter and the return type a rendering of its kind. -/
def realisesSig (d : FunDecl) (sig : IfaceSig) : Bool :=
  d.params.length == sig.params.length && (paramMismatches d sig).isEmpty
    && realises d.ret sig.ret

end Bridge

/-! ## Behaviour of the declared functions

The header gives the three functions no bodies.  Their behaviour is modelled
here from the specification: a world that holds what the host-language glue
holds, and one state transformer per declared function.  Pointers are numbers;
the `int *success` output parameter becomes a component of the result. -/

namespace Bridge.Model

/-- Modelled from the spec: the host-language import-resolution logic, which the
bridge calls and does not implement (§6, collaborators).  For a VM handle, a
base path and a relative path it yields either the resolved content or a
diagnostic (§9, a result type carrying either content or a diagnostic), and the
host-side resolution state it leaves behind. -/
structure Host (σ : Type) where
  resolve : σ → Nat → String → String → Except String String × σ

/-- Modelled from the spec: what the host-language glue holds between calls
(§3, §4.1): the contexts it has created, each wrapping exactly one VM handle,
and the state of its resolution logic. -/
structure World (σ : Type) where
  contexts : List (Nat × Nat)
  resolution : σ

/-- What a trampoline call hands back to native code: the value written through
`int *success` and the content of the returned `char*` buffer. -/
structure ImportResult where
  success : Int
  buffer : String
  deriving DecidableEq, Repr

/-- Modelled from the spec: the host glue creates a context that wraps the VM
handle `vm`; the new context is a token not in use. -/
def newContext {σ : Type} (w : World σ) (vm : Nat) : Nat × World σ :=
  let ctx := (w.contexts.map Prod.fst).foldl max 0 + 1
  (ctx, { w with contexts := (ctx, vm) :: w.contexts })

/-- Modelled from the spec: `struct JsonnetVm* go_get_guts(void* ctx)` (§4.1):
return the VM handle the context wraps, leaving the world as it is.  For a
reference that is not a context of the host glue the behaviour is undefined,
rendered as `none`. -/
def go_get_guts {σ : Type} (w : World σ) (ctx : Nat) : Option Nat × World σ :=
  (w.contexts.lookup ctx, w)

/-- Modelled from the spec: `char* go_call_import(void* vm, char *base,
char *rel, int *success)` (§4.2): invoke the host resolution logic; on success
write a non-zero flag and return the content, on failure write zero and return
the diagnostic.  The bridge keeps no state of its own: the only change to the
world is the one the resolution logic makes to its own state. -/
def go_call_import {σ : Type} (h : Host σ) (w : World σ) (vm : Nat)
    (base rel : String) : ImportResult × World σ :=
  match h.resolve w.resolution vm base rel with
  | (.ok content, s) => (⟨1, content⟩, { w with resolution := s })
  | (.error diagnostic, s) => (⟨0, diagnostic⟩, { w with resolution := s })

/-- Modelled from the spec: `char* CallImport_cgo(void *ctx, const char *base,
const char *rel, int *success)` (§4.2), the entry point registered as the
evaluator's import callback: the context is turned into the VM handle by the
accessor and the call is handed on to `go_call_import`.  Undefined behaviour of
the accessor is rendered as `none`. -/
def CallImport_cgo {σ : Type} (h : Host σ) (w : World σ) (ctx : Nat)
    (base rel : String) : Option (ImportResult × World σ) :=
  match go_get_guts w ctx with
  | (some vm, w1) => some (go_call_import h w1 vm base rel)
  | (none, _) => none

/-- A host whose files are a fixed table from (base, rel) to content, used to
run the model on concrete inputs.  A miss is reported with a diagnostic that
names the import. -/
def tableHost (files : List ((String × String) × String)) : Host Nat :=
  { resolve := fun s _ base rel =>
      match files.lookup (base, rel) with
      | some content => (.ok content, s)
      | none => (.error ("import not found: " ++ rel), s) }

/-- A host with one file, `lib.libsonnet` under `/etc/jsonnet/`. -/
def sampleHost : Host Nat :=
  tableHost [(("/etc/jsonnet/", "lib.libsonnet"), "[1, 2, 3]")]

/-- A world with two contexts: context 1 wraps VM handle 4096 and context 2
wraps VM handle 8192. -/
def sampleWorld : World Nat :=
  { contexts := [(1, 4096), (2, 8192)], resolution := 0 }

end Bridge.Model

/-! ## The declarations of the header -/

namespace Bridge

/-- C4: the typedef on line 5 makes `JsonnetImportCallbackPtr` a pointer to the
library's own `JsonnetImportCallback` type, and `CallImport_cgo` is declared
with exactly that callback's shape (`void*`, `const char*`, `const char*`,
`int*`, returning `char*`: same count, order and types, hence widths), so it
can be stored as a `JsonnetImportCallbackPtr` without a cast. -/
theorem callback_type_matches_library :
    typedefNamed bridge_h "JsonnetImportCallbackPtr"
        = some (.ptr (.named "JsonnetImportCallback")) ∧
      pointee libjsonnet_h Decl.JsonnetImportCallbackPtr = some JsonnetImportCallback ∧
      functionNamed bridge_h "CallImport_cgo" = some Decl.CallImport_cgo ∧
      Decl.CallImport_cgo.params
        = [⟨.ptr .void, "ctx"⟩, ⟨.ptr (.const .char), "base"⟩,
           ⟨.ptr (.const .char), "rel"⟩, ⟨.ptr .int, "success"⟩] ∧
      Decl.CallImport_cgo.ret = .ptr .char ∧
      Decl.CallImport_cgo.params.length = JsonnetImportCallback.params.length ∧
      Decl.CallImport_cgo.type = JsonnetImportCallback ∧
      registrableAs libjsonnet_h Decl.CallImport_cgo Decl.JsonnetImportCallbackPtr = true := by
  decide

/-- C5, as stated, fails: the declared import trampolines do not render the
interface `(native_vm_handle, string, string, out success: bool*) -> buffer`,
because the success flag is declared `int *success`, a pointer to `int` and not
to a bool. -/
theorem trampoline_flag_not_bool :
    ¬ (realisesSig Decl.go_call_import specTrampoline = true
        ∧ realisesSig Decl.go_get_guts specAccessor = true) ∧
      realisesSig Decl.CallImport_cgo specTrampoline = false ∧
      (Decl.go_call_import.params.map Param.type)[3]? = some (.ptr .int) ∧
      (Decl.CallImport_cgo.params.map Param.type)[3]? = some (.ptr .int) ∧
      realises (.ptr .int) .outBool = false := by
  decide

/-- C5, amended: `go_call_import` is declared `char*(void* vm, char* base,
char* rel, int* success)`: four parameters that render, in order, a VM handle
(as an untyped pointer), a base path string, a relative path string, and, in
the one position that departs from the stated interface, an output pointer to
an `int` success flag; it returns a `char*` buffer.  The accessor
`go_get_guts` is declared `struct JsonnetVm*(void* ctx)`, which renders
`(opaque_context) -> native_vm_handle`. -/
theorem declared_signatures_of_trampoline_and_accessor :
    functionNamed bridge_h "go_call_import" = some Decl.go_call_import ∧
      Decl.go_call_import.type
        = ⟨.ptr .char, [.ptr .void, .ptr .char, .ptr .char, .ptr .int]⟩ ∧
      Decl.go_call_import.params.map Param.name = ["vm", "base", "rel", "success"] ∧
      Decl.go_call_import.params.length = specTrampoline.params.length ∧
      paramMismatches Decl.go_call_import specTrampoline = [3] ∧
      realises Decl.go_call_import.ret specTrampoline.ret = true ∧
      functionNamed bridge_h "go_get_guts" = some Decl.go_get_guts ∧
      Decl.go_get_guts.type = ⟨.ptr (.struct "JsonnetVm"), [.ptr .void]⟩ ∧
      realisesSig Decl.go_get_guts specAccessor = true := by
  decide

/-- C6: the header declares exactly four identifiers, in this order: the typedef
`JsonnetImportCallbackPtr` (a pointer to the import-callback type), the accessor
`go_get_guts` (context in, VM handle out) and the two import functions
`CallImport_cgo` and `go_call_import`; none of the three functions has a body.
The only other name the file introduces is its include-guard macro, which is a
preprocessor definition with an empty replacement and declares nothing. -/
theorem header_declares_exactly_four_symbols :
    declaredSymbols bridge_h
        = ["JsonnetImportCallbackPtr", "go_get_guts", "CallImport_cgo", "go_call_import"] ∧
      typedefs bridge_h
        = [("JsonnetImportCallbackPtr", .ptr (.named "JsonnetImportCallback"))] ∧
      functions bridge_h = [Decl.go_get_guts, Decl.CallImport_cgo, Decl.go_call_import] ∧
      (∀ d ∈ functions bridge_h, d.body = none) ∧
      Decl.go_get_guts.type = ⟨.ptr (.struct "JsonnetVm"), [.ptr .void]⟩ ∧
      Decl.CallImport_cgo.params.map Param.name = ["ctx", "base", "rel", "success"] ∧
      Decl.go_call_import.params.map Param.name = ["vm", "base", "rel", "success"] ∧
      macros bridge_h = [("LIBJSONNET_BRIDGE_H", "")] ∧
      bridge_h.length = 8 := by
  decide

/-- C10: `CallImport_cgo` and `go_call_import` have the same return type
(`char*`) and four parameters each; their parameter names differ only in
position 0 (`ctx` against `vm`); their parameter types differ only in positions
1 and 2, and there only by `const` (`const char*` against `char*`).  Forwarding
a call from `CallImport_cgo` to `go_call_import` argument by argument is
possible: the handle `go_get_guts` returns for the context converts implicitly
to `void*`, the two path strings are passed with a cast that drops `const`, and
the success pointer is passed unchanged. -/
theorem import_functions_differ_only_in_name_and_const :
    Decl.CallImport_cgo.ret = Decl.go_call_import.ret ∧
      Decl.go_call_import.ret = .ptr .char ∧
      Decl.CallImport_cgo.params.length = 4 ∧
      Decl.go_call_import.params.length = 4 ∧
      diffPositions (fun p q => p.name == q.name)
        Decl.CallImport_cgo.params Decl.go_call_import.params = [0] ∧
      diffPositions (fun p q => p.type == q.type)
        Decl.CallImport_cgo.params Decl.go_call_import.params = [1, 2] ∧
      diffPositions (fun p q => stripConst p.type == stripConst q.type)
        Decl.CallImport_cgo.params Decl.go_call_import.params = [] ∧
      Decl.CallImport_cgo.params.map Param.type
        = [.ptr .void, .ptr (.const .char), .ptr (.const .char), .ptr .int] ∧
      Decl.go_call_import.params.map Param.type
        = [.ptr .void, .ptr .char, .ptr .char, .ptr .int] ∧
      Decl.go_get_guts.params.map Param.type
        = (Decl.CallImport_cgo.params.map Param.type).take 1 ∧
      List.zipWith argConv
          (Decl.go_get_guts.ret :: (Decl.CallImport_cgo.params.map Param.type).drop 1)
          (Decl.go_call_import.params.map Param.type)
        = [.implicit, .cast, .cast, .exact] := by
  decide

end Bridge

/-! ## The behaviour of the bridge -/

namespace Bridge.Model

/-- C1: whenever the host resolution logic resolves (base, rel) to `content`,
`go_call_import` writes a non-zero success flag and returns a buffer whose
content is exactly `content`; and `CallImport_cgo`, called with any context
that wraps the VM handle, returns with the same flag and the same content. -/
theorem import_resolved_returns_host_content {σ : Type} (h : Host σ) (w : World σ)
    (vm : Nat) (base rel content : String) (s : σ)
    (hres : h.resolve w.resolution vm base rel = (.ok content, s)) :
    (go_call_import h w vm base rel).1.success ≠ 0 ∧
      (go_call_import h w vm base rel).1.buffer = content ∧
      ∀ ctx, w.contexts.lookup ctx = some vm →
        ∃ r, CallImport_cgo h w ctx base rel = some r ∧
          r.1.success ≠ 0 ∧ r.1.buffer = content := by
  have hcall : go_call_import h w vm base rel = (⟨1, content⟩, { w with resolution := s }) := by
    simp [go_call_import, hres]
  refine ⟨by simp [hcall], by simp [hcall], ?_⟩
  intro ctx hctx
  refine ⟨(⟨1, content⟩, { w with resolution := s }), ?_, by simp, rfl⟩
  simp [CallImport_cgo, go_get_guts, hctx, hcall]

/-- Witness for C1: the sample host resolves `lib.libsonnet` under
`/etc/jsonnet/`. -/
theorem import_resolved_returns_host_content_witness :
    sampleHost.resolve sampleWorld.resolution 4096 "/etc/jsonnet/" "lib.libsonnet"
        = (.ok "[1, 2, 3]", 0) ∧
      ((go_call_import sampleHost sampleWorld 4096 "/etc/jsonnet/" "lib.libsonnet").1.success ≠ 0 ∧
        (go_call_import sampleHost sampleWorld 4096 "/etc/jsonnet/" "lib.libsonnet").1.buffer
          = "[1, 2, 3]" ∧
        ∀ ctx, sampleWorld.contexts.lookup ctx = some 4096 →
          ∃ r, CallImport_cgo sampleHost sampleWorld ctx "/etc/jsonnet/" "lib.libsonnet" = some r ∧
            r.1.success ≠ 0 ∧ r.1.buffer = "[1, 2, 3]") :=
  ⟨rfl, import_resolved_returns_host_content sampleHost sampleWorld 4096
    "/etc/jsonnet/" "lib.libsonnet" "[1, 2, 3]" 0 rfl⟩

/-- C3: for a context of the host glue that wraps the VM handle `vm`, the
accessor returns `vm` on the first call and on every later call, never fails,
and leaves the world exactly as it found it (nothing is allocated, no context
and no resolution state changes); and a context the host glue has just created
for `vm2` yields `vm2` in the same way. -/
theorem go_get_guts_same_handle_no_effect {σ : Type} (w : World σ) (ctx vm : Nat)
    (hvalid : w.contexts.lookup ctx = some vm) :
    go_get_guts w ctx = (some vm, w) ∧
      (∀ n : Nat, go_get_guts ((fun v => (go_get_guts v ctx).2)^[n] w) ctx = (some vm, w)) ∧
      ∀ vm2 : Nat,
        go_get_guts (newContext w vm2).2 (newContext w vm2).1
          = (some vm2, (newContext w vm2).2) := by
  have hfix : (fun v : World σ => (go_get_guts v ctx).2) w = w := rfl
  refine ⟨by simp [go_get_guts, hvalid], ?_, ?_⟩
  · intro n
    rw [Function.iterate_fixed hfix n]
    simp [go_get_guts, hvalid]
  · intro vm2
    simp [go_get_guts, newContext, List.lookup]

/-- Witness for C3: context 2 of the sample world wraps VM handle 8192. -/
theorem go_get_guts_same_handle_no_effect_witness :
    sampleWorld.contexts.lookup 2 = some 8192 ∧
      go_get_guts sampleWorld 2 = (some 8192, sampleWorld) ∧
      go_get_guts (go_get_guts sampleWorld 2).2 2 = (some 8192, sampleWorld) :=
  ⟨by decide,
    (go_get_guts_same_handle_no_effect sampleWorld 2 8192 (by decide)).1,
    (go_get_guts_same_handle_no_effect sampleWorld 2 8192 (by decide)).2.1 1⟩

end Bridge.Model
